import Mathlib

set_option maxRecDepth 100000

/-!
# Verification of the Thumbor URL builder

Shallow embedding of `src/thumbor-url-builder.ts` (class `ThumborUrlBuilder`):
the mutable builder state becomes a structure, each method a function on that
structure, and the fallible `urlParts` / `buildUrl` methods return
`Except String _` (the `throw new Error(...)` branch becomes `Except.error`).
JavaScript strings are modelled by `String`, JS numbers occurring here
(width/height/crop coordinates, typed `number` and used as integers) by `Int`.
The `crypto-js` HMAC-SHA1 / Base64 primitives the source delegates to are
implemented below from their standards (FIPS 198-1 / FIPS 180-1, RFC 4648),
over byte lists (`List Nat`, each entry < 256), with UTF-8 string decoding
(crypto-js's default encoder).
-/

/-- Modelled from the spec: the horizontal-alignment enumerated type `HAlign`
(declared in `src/models`, not present under `src/`): tokens left/center/right. -/
inductive HAlign where
  | left
  | center
  | right
deriving DecidableEq, Repr

/-- The token serialized for an `HAlign` value (the value is the token itself
in the source, a string union type). -/
def HAlign.toStr : HAlign → String
  | .left => "left"
  | .center => "center"
  | .right => "right"

/-- Modelled from the spec: the vertical-alignment enumerated type `VAlign`
(declared in `src/models`, not present under `src/`): tokens top/middle/bottom. -/
inductive VAlign where
  | top
  | middle
  | bottom
deriving DecidableEq, Repr

/-- The token serialized for a `VAlign` value. -/
def VAlign.toStr : VAlign → String
  | .top => "top"
  | .middle => "middle"
  | .bottom => "bottom"

/-- Modelled from the spec: the crop-window record `CropModel` from
`src/models` — four integer fields left/top/right/bottom. -/
structure CropModel where
  left : Int
  top : Int
  right : Int
  bottom : Int
deriving DecidableEq, Repr

/-- Modelled from the spec: `Format` from `src/models` — image format
identifiers consumed as opaque string-like tokens (e.g. webp, jpeg, png). -/
abbrev Format : Type := String

deriving instance DecidableEq for Except

/-- Builder state: the private fields of class `ThumborUrlBuilder`, with their
initializers as structure defaults. `securityKey` is `Option String` because
the source tests `this.securityKey == null` (a caller may pass `null` for the
`string`-typed constructor parameter); `none` models null/absent. -/
structure ThumborUrlBuilder where
  securityKey : Option String
  serverUrl : String
  imagePath : String := ""
  width : Int := 0
  height : Int := 0
  smart : Bool := false
  fitInFlag : Bool := false
  flipHorizontally : Bool := false
  flipVertically : Bool := false
  hAlignValue : Option HAlign := none
  vAlignValue : Option VAlign := none
  cropValues : Option CropModel := none
  meta : Bool := false
  filtersCalls : List String := []
deriving DecidableEq, Repr

/-- The constructor `new ThumborUrlBuilder(securityKey, serverUrl)`: every
non-constructor field keeps its initializer. -/
def mkBuilder (securityKey : Option String) (serverUrl : String) : ThumborUrlBuilder :=
  { securityKey := securityKey, serverUrl := serverUrl }

namespace ThumborUrlBuilder

/-- `setImagePath(imagePath)`: stores the argument, with one leading `'/'`
stripped when `imagePath.charAt(0) === '/'` (then `substring(1, length)`,
i.e. everything after the first character). -/
def setImagePath (self : ThumborUrlBuilder) (imagePath : String) : ThumborUrlBuilder :=
  { self with
    imagePath :=
      if imagePath.data.head? = some '/' then String.mk imagePath.data.tail
      else imagePath }

/-- `resize(width, height)`: overwrites `width` and `height`. -/
def resize (self : ThumborUrlBuilder) (width height : Int) : ThumborUrlBuilder :=
  { self with width := width, height := height }

/-- `smartCrop(smartCrop)`: sets the `smart` flag. -/
def smartCrop (self : ThumborUrlBuilder) (smartCrop : Bool) : ThumborUrlBuilder :=
  { self with smart := smartCrop }

/-- `fitIn(width, height)`: overwrites `width` and `height` and sets
`fitInFlag` to `true`. -/
def fitIn (self : ThumborUrlBuilder) (width height : Int) : ThumborUrlBuilder :=
  { self with width := width, height := height, fitInFlag := true }

/-- `withFlipHorizontally()`. -/
def withFlipHorizontally (self : ThumborUrlBuilder) : ThumborUrlBuilder :=
  { self with flipHorizontally := true }

/-- `withFlipVertically()`. -/
def withFlipVertically (self : ThumborUrlBuilder) : ThumborUrlBuilder :=
  { self with flipVertically := true }

/-- `hAlign(hAlign)`. -/
def hAlign (self : ThumborUrlBuilder) (hAlign : HAlign) : ThumborUrlBuilder :=
  { self with hAlignValue := some hAlign }

/-- `vAlign(vAlign)`. -/
def vAlign (self : ThumborUrlBuilder) (vAlign : VAlign) : ThumborUrlBuilder :=
  { self with vAlignValue := some vAlign }

/-- `metaDataOnly()`. -/
def metaDataOnly (self : ThumborUrlBuilder) : ThumborUrlBuilder :=
  { self with meta := true }

/-- `filter(filterCall)`: `this.filtersCalls.push(filterCall)`. -/
def filter (self : ThumborUrlBuilder) (filterCall : String) : ThumborUrlBuilder :=
  { self with filtersCalls := self.filtersCalls ++ [filterCall] }

/-- `format(format)`: `this.filter(` ++ `format(${format})` ++ `)`. -/
def format (self : ThumborUrlBuilder) (format : Format) : ThumborUrlBuilder :=
  self.filter ("format(" ++ format ++ ")")

/-- `crop(left, top, right, bottom)`: assigns `cropValues` only when all four
arguments are `> 0`; otherwise the method only `return this`. -/
def crop (self : ThumborUrlBuilder) (left top right bottom : Int) : ThumborUrlBuilder :=
  if 0 < left ∧ 0 < top ∧ 0 < right ∧ 0 < bottom then
    { self with cropValues := some { left := left, top := top, right := right, bottom := bottom } }
  else
    self

/-- `urlParts()`: throws when `!this.imagePath` (the empty string is the only
falsy `String` value reachable for the field), otherwise pushes one segment
per enabled feature, in source order. -/
def urlParts (self : ThumborUrlBuilder) : Except String (List String) :=
  if self.imagePath = "" then
    Except.error "The image url can't be null or empty."
  else
    let parts : List String := []
    let parts := if self.meta = true then parts ++ ["meta"] else parts
    let parts :=
      match self.cropValues with
      | some c =>
          parts ++ [toString c.left ++ "x" ++ toString c.top ++ ":" ++
            toString c.right ++ "x" ++ toString c.bottom]
      | none => parts
    let parts := if self.fitInFlag = true then parts ++ ["fit-in"] else parts
    let parts :=
      if self.width ≠ 0 ∨ self.height ≠ 0 ∨ self.flipHorizontally = true ∨
          self.flipVertically = true then
        let sizeString := ""
        let sizeString := if self.flipHorizontally = true then sizeString ++ "-" else sizeString
        let sizeString := sizeString ++ toString self.width
        let sizeString := sizeString ++ "x"
        let sizeString := if self.flipVertically = true then sizeString ++ "-" else sizeString
        let sizeString := sizeString ++ toString self.height
        parts ++ [sizeString]
      else parts
    let parts :=
      match self.hAlignValue with
      | some a => parts ++ [a.toStr]
      | none => parts
    let parts :=
      match self.vAlignValue with
      | some a => parts ++ [a.toStr]
      | none => parts
    let parts := if self.smart = true then parts ++ ["smart"] else parts
    let parts :=
      if self.filtersCalls.length > 0 then
        parts ++ ["filters:" ++ String.intercalate ":" self.filtersCalls]
      else parts
    Except.ok parts

/-- `getOperationPath()`: joins the parts with `'/'` and a trailing `'/'`,
or the empty string when there are no parts; the `urlParts` exception
propagates to the caller. -/
def getOperationPath (self : ThumborUrlBuilder) : Except String String :=
  match self.urlParts with
  | Except.error e => Except.error e
  | Except.ok parts =>
      if parts.length = 0 then Except.ok ""
      else Except.ok (String.intercalate "/" parts ++ "/")

end ThumborUrlBuilder

/-! ## The `crypto-js` primitives used by `getSecureString`

`crypto.HmacSHA1(message, key)` with string arguments interprets both as
UTF-8 (crypto-js's default encoder), and `crypto.enc.Base64.stringify`
produces standard Base64 with `'='` padding. They are implemented here from
FIPS 180-1 / FIPS 198-1 / RFC 4648 over byte lists (`List Nat`). -/

/-- UTF-8 encoding of one character (RFC 3629). -/
def utf8Char (c : Char) : List Nat :=
  let n := c.toNat
  if n < 128 then [n]
  else if n < 2048 then [192 + n / 64, 128 + n % 64]
  else if n < 65536 then [224 + n / 4096, 128 + n / 64 % 64, 128 + n % 64]
  else [240 + n / 262144, 128 + n / 4096 % 64, 128 + n / 64 % 64, 128 + n % 64]

/-- UTF-8 bytes of a string. -/
def utf8Bytes (s : String) : List Nat := (s.data.map utf8Char).flatten

/-- Truncation to a 32-bit word. -/
def w32 (n : Nat) : Nat := n % 4294967296

/-- Left rotation of a 32-bit word `n < 2 ^ 32` by `k ≤ 32` bits. -/
def rotl (n k : Nat) : Nat := w32 (n * 2 ^ k) + n / 2 ^ (32 - k)

/-- Big-endian 32-bit words from a byte list (length a multiple of 4). -/
def word32OfBytes : List Nat → List Nat
  | a :: b :: c :: d :: rest => (((a * 256 + b) * 256 + c) * 256 + d) :: word32OfBytes rest
  | _ => []

/-- Big-endian 4-byte serialization of a 32-bit word. -/
def word32Bytes (n : Nat) : List Nat :=
  [n / 16777216 % 256, n / 65536 % 256, n / 256 % 256, n % 256]

/-- Big-endian 8-byte serialization of a 64-bit length field. -/
def word64Bytes (n : Nat) : List Nat :=
  [n / 72057594037927936 % 256, n / 281474976710656 % 256, n / 1099511627776 % 256,
   n / 4294967296 % 256, n / 16777216 % 256, n / 65536 % 256, n / 256 % 256, n % 256]

/-- SHA-1 message-schedule extension; `rev` holds the words produced so far,
most recent first, and each new word is
`ROTL1 (W[t-3] xor W[t-8] xor W[t-14] xor W[t-16])`. -/
def extendWords (rev : List Nat) : Nat → List Nat
  | 0 => rev
  | n + 1 =>
      extendWords
        (rotl ((rev.getD 2 0) ^^^ (rev.getD 7 0) ^^^ (rev.getD 13 0) ^^^ (rev.getD 15 0)) 1
          :: rev) n

/-- The five-word SHA-1 chaining state. -/
structure Sha1State where
  a : Nat
  b : Nat
  c : Nat
  d : Nat
  e : Nat
deriving DecidableEq, Repr

/-- The SHA-1 round function `f_t` (FIPS 180-1 §5). -/
def sha1F (t b c d : Nat) : Nat :=
  if t < 20 then (b &&& c) ||| ((b ^^^ 4294967295) &&& d)
  else if t < 40 then b ^^^ c ^^^ d
  else if t < 60 then (b &&& c) ||| (b &&& d) ||| (c &&& d)
  else b ^^^ c ^^^ d

/-- The SHA-1 round constants `K_t`. -/
def sha1K (t : Nat) : Nat :=
  if t < 20 then 1518500249
  else if t < 40 then 1859775393
  else if t < 60 then 2400959708
  else 3395469782

/-- The 80 SHA-1 rounds over one block's message schedule. -/
def sha1Rounds : List Nat → Nat → Sha1State → Sha1State
  | [], _, h => h
  | w :: ws, t, h =>
      sha1Rounds ws (t + 1)
        { a := w32 (rotl h.a 5 + sha1F t h.b h.c h.d + h.e + sha1K t + w),
          b := h.a, c := rotl h.b 30, d := h.c, e := h.d }

/-- Compress one 64-byte block into the chaining state. -/
def sha1Compress (h : Sha1State) (block : List Nat) : Sha1State :=
  let ws := (extendWords (word32OfBytes block).reverse 64).reverse
  let h2 := sha1Rounds ws 0 h
  { a := w32 (h.a + h2.a), b := w32 (h.b + h2.b), c := w32 (h.c + h2.c),
    d := w32 (h.d + h2.d), e := w32 (h.e + h2.e) }

/-- Iterated compression over consecutive 64-byte blocks. -/
def sha1Iter : Nat → Sha1State → List Nat → Sha1State
  | 0, h, _ => h
  | n + 1, h, bytes => sha1Iter n (sha1Compress h (bytes.take 64)) (bytes.drop 64)

/-- SHA-1 padding: append `0x80`, zero bytes up to 56 mod 64, then the 64-bit
big-endian bit length. -/
def sha1Pad (msg : List Nat) : List Nat :=
  let len := msg.length
  let zeros := (120 - (len + 1) % 64) % 64
  msg ++ 128 :: List.replicate zeros 0 ++ word64Bytes (len * 8)

/-- The SHA-1 initial chaining state `H0 … H4`. -/
def sha1Init : Sha1State :=
  { a := 1732584193, b := 4023233417, c := 2562383102, d := 271733878, e := 3285377520 }

/-- The 20 digest bytes of a chaining state. -/
def sha1Digest (h : Sha1State) : List Nat :=
  word32Bytes h.a ++ word32Bytes h.b ++ word32Bytes h.c ++ word32Bytes h.d ++ word32Bytes h.e

/-- SHA-1 of a byte list: the 20 digest bytes. -/
def sha1 (msg : List Nat) : List Nat :=
  let padded := sha1Pad msg
  sha1Digest (sha1Iter (padded.length / 64) sha1Init padded)

/-- HMAC-SHA1 (FIPS 198-1) of `msg` under `key`, block size 64. -/
def hmacSha1 (key msg : List Nat) : List Nat :=
  let k0 := if 64 < key.length then sha1 key else key
  let k := k0 ++ List.replicate (64 - k0.length) 0
  sha1 ((k.map (fun x => x ^^^ 92)) ++ sha1 ((k.map (fun x => x ^^^ 54)) ++ msg))

/-- The Base64 alphabet (RFC 4648). -/
def b64Char (n : Nat) : Char :=
  "ABCDEFGHIJKLMNOPQRSTUVWXYZabcdefghijklmnopqrstuvwxyz0123456789+/".data.getD n 'A'

/-- Standard Base64 with `'='` padding (`crypto.enc.Base64.stringify`). -/
def base64Encode : List Nat → List Char
  | [] => []
  | [a] => [b64Char (a / 4), b64Char (a % 4 * 16), '=', '=']
  | [a, b] => [b64Char (a / 4), b64Char (a % 4 * 16 + b / 16), b64Char (b % 16 * 4), '=']
  | a :: b :: c :: rest =>
      b64Char (a / 4) :: b64Char (a % 4 * 16 + b / 16) :: b64Char (b % 16 * 4 + c / 64) ::
        b64Char (c % 64) :: base64Encode rest

/-- JS `String.prototype.replace` with a global single-character regex:
every occurrence of the character `a` becomes `b`. -/
def jsReplaceAll (s : String) (a b : Char) : String :=
  String.mk (s.data.map fun c => if c = a then b else c)

namespace ThumborUrlBuilder

/-- `getSecureString(operation)`: the literal `'unsafe'` when
`this.securityKey == null`; otherwise the Base64 of
`HmacSHA1(operation + imagePath, securityKey)` with every `+` replaced by `-`
and then every `/` replaced by `_`. -/
def getSecureString (self : ThumborUrlBuilder) (operation : String) : String :=
  match self.securityKey with
  | none => "unsafe"
  | some securityKey =>
      let key := hmacSha1 (utf8Bytes securityKey) (utf8Bytes (operation ++ self.imagePath))
      let keyString := jsReplaceAll (jsReplaceAll (String.mk (base64Encode key)) '+' '-') '/' '_'
      keyString

/-- `buildUrl()`: `serverUrl + '/' + secureString + '/' + operation + imagePath`,
propagating the `urlParts` error. -/
def buildUrl (self : ThumborUrlBuilder) : Except String String :=
  match self.getOperationPath with
  | Except.error e => Except.error e
  | Except.ok operation =>
      let secureString := self.getSecureString operation
      Except.ok (self.serverUrl ++ "/" ++ secureString ++ "/" ++ operation ++ self.imagePath)

/-! ### State-passing view of the build pipeline

The source methods called during `buildUrl()` — `urlParts`, `getOperationPath`,
`getSecureString` and `buildUrl` itself — contain no assignment to any field
of `this`; each reads the current state only. Their state-passing forms below
therefore pair the result of the corresponding pure function with the state
the method leaves behind, which is the state it received. -/

/-- `urlParts()` as a state transformer: result plus post-state. -/
def urlPartsS (self : ThumborUrlBuilder) :
    Except String (List String) × ThumborUrlBuilder :=
  (self.urlParts, self)

/-- `getOperationPath()` as a state transformer. -/
def getOperationPathS (self : ThumborUrlBuilder) :
    Except String String × ThumborUrlBuilder :=
  let res := self.urlPartsS
  match res.1 with
  | Except.error e => (Except.error e, res.2)
  | Except.ok parts =>
      if parts.length = 0 then (Except.ok "", res.2)
      else (Except.ok (String.intercalate "/" parts ++ "/"), res.2)

/-- `getSecureString(operation)` as a state transformer. -/
def getSecureStringS (self : ThumborUrlBuilder) (operation : String) :
    String × ThumborUrlBuilder :=
  (self.getSecureString operation, self)

/-- `buildUrl()` as a state transformer: threads the state through the two
helper calls and returns it alongside the URL. -/
def buildUrlS (self : ThumborUrlBuilder) : Except String String × ThumborUrlBuilder :=
  let op := self.getOperationPathS
  match op.1 with
  | Except.error e => (Except.error e, op.2)
  | Except.ok operation =>
      let sec := op.2.getSecureStringS operation
      (Except.ok (sec.2.serverUrl ++ "/" ++ sec.1 ++ "/" ++ operation ++ sec.2.imagePath), sec.2)

end ThumborUrlBuilder

/-! ## Setter call sequences

A configuration run is any sequence of the chainable setter calls of §4.1,
applied left to right. `buildUrl` / `urlParts` are not actions: they assign
no field. -/

/-- One chainable setter call. -/
inductive Setter where
  | setImagePath (p : String)
  | resize (w h : Int)
  | smartCrop (b : Bool)
  | fitIn (w h : Int)
  | withFlipHorizontally
  | withFlipVertically
  | hAlign (a : HAlign)
  | vAlign (a : VAlign)
  | metaDataOnly
  | filter (c : String)
  | format (f : Format)
  | crop (l t r b : Int)
deriving DecidableEq, Repr

/-- Apply one setter call to the builder. -/
def applySetter (b : ThumborUrlBuilder) : Setter → ThumborUrlBuilder
  | .setImagePath p => b.setImagePath p
  | .resize w h => b.resize w h
  | .smartCrop s => b.smartCrop s
  | .fitIn w h => b.fitIn w h
  | .withFlipHorizontally => b.withFlipHorizontally
  | .withFlipVertically => b.withFlipVertically
  | .hAlign a => b.hAlign a
  | .vAlign a => b.vAlign a
  | .metaDataOnly => b.metaDataOnly
  | .filter c => b.filter c
  | .format f => b.format f
  | .crop l t r bt => b.crop l t r bt

/-- Run a chain of setter calls, left to right. -/
def run (b : ThumborUrlBuilder) (acts : List Setter) : ThumborUrlBuilder :=
  acts.foldl applySetter b

/-! ## The eight operation-path segments (§4.2), each as a function of the
builder state: the empty list when the enabling condition is false, otherwise
one segment string. -/

/-- Segment 1: `meta`. -/
def metaSeg (b : ThumborUrlBuilder) : List String :=
  if b.meta = true then ["meta"] else []

/-- Segment 2: the crop window `{left}x{top}:{right}x{bottom}`. -/
def cropSeg (b : ThumborUrlBuilder) : List String :=
  match b.cropValues with
  | some c =>
      [toString c.left ++ "x" ++ toString c.top ++ ":" ++
        toString c.right ++ "x" ++ toString c.bottom]
  | none => []

/-- Segment 3: `fit-in`. -/
def fitInSeg (b : ThumborUrlBuilder) : List String :=
  if b.fitInFlag = true then ["fit-in"] else []

/-- Segment 4: the size segment, with `-` flip markers. -/
def sizeSeg (b : ThumborUrlBuilder) : List String :=
  if b.width ≠ 0 ∨ b.height ≠ 0 ∨ b.flipHorizontally = true ∨ b.flipVertically = true then
    [(if b.flipHorizontally = true then "-" else "") ++ toString b.width ++ "x" ++
      ((if b.flipVertically = true then "-" else "") ++ toString b.height)]
  else []

/-- Segment 5: the horizontal-alignment token. -/
def hAlignSeg (b : ThumborUrlBuilder) : List String :=
  match b.hAlignValue with
  | some a => [a.toStr]
  | none => []

/-- Segment 6: the vertical-alignment token. -/
def vAlignSeg (b : ThumborUrlBuilder) : List String :=
  match b.vAlignValue with
  | some a => [a.toStr]
  | none => []

/-- Segment 7: `smart`. -/
def smartSeg (b : ThumborUrlBuilder) : List String :=
  if b.smart = true then ["smart"] else []

/-- Segment 8: the accumulated filters, `:`-joined behind `filters:`. -/
def filtersSeg (b : ThumborUrlBuilder) : List String :=
  if b.filtersCalls.length > 0 then
    ["filters:" ++ String.intercalate ":" b.filtersCalls]
  else []

/-- The URL-safe substitution of §4.3, character by character: `+` becomes
`-`, `/` becomes `_`, everything else (the `=` padding included) is kept. -/
def urlSafeChar (c : Char) : Char :=
  if c = '+' then '-' else if c = '/' then '_' else c

/-- The §4.3 signature, stated from the spec's words: the standard Base64
encoding of the HMAC-SHA1 digest of `operationPath + imagePath` keyed by the
security key, mapped through the URL-safe substitution. -/
def specSignature (key operationPath imagePath : String) : String :=
  String.mk
    ((base64Encode (hmacSha1 (utf8Bytes key) (utf8Bytes (operationPath ++ imagePath)))).map
      urlSafeChar)

/-- Conditional-push for lists: pushing onto `p` under a condition is
appending the conditional singleton. -/
theorem listPush (c : Prop) [Decidable c] (p q : List String) :
    (if c then p ++ q else p) = p ++ (if c then q else []) := by
  split <;> simp

/-- Conditional-push for strings. -/
theorem strPush (c : Prop) [Decidable c] (p q : String) :
    (if c then p ++ q else p) = p ++ (if c then q else "") := by
  split <;> simp

/-- `urlParts` renders exactly the eight segments, in their fixed order. -/
theorem urlParts_eq_segments (b : ThumborUrlBuilder) (h : b.imagePath ≠ "") :
    b.urlParts = Except.ok (metaSeg b ++ cropSeg b ++ fitInSeg b ++ sizeSeg b ++
      hAlignSeg b ++ vAlignSeg b ++ smartSeg b ++ filtersSeg b) := by
  obtain ⟨sk, su, ip, w, hg, sm, fi, fh, fv, ha, va, cv, me, fc⟩ := b
  cases cv <;> cases ha <;> cases va <;>
    simp only [ThumborUrlBuilder.urlParts, metaSeg, cropSeg, fitInSeg, sizeSeg,
      hAlignSeg, vAlignSeg, smartSeg, filtersSeg, if_neg h, listPush, strPush] <;>
    simp [List.append_assoc, String.append_assoc, String.empty_append]

example : (mkBuilder none "http://example.com").imagePath = "" := rfl

example :
    ((mkBuilder none "http://example.com").setImagePath "/image.jpg").imagePath = "image.jpg" :=
  rfl

example :
    (((mkBuilder none "http://example.com").setImagePath "/image.jpg").resize 300 200).urlParts =
      Except.ok ["300x200"] := by
  decide

example : sha1 [] =
    [0xda, 0x39, 0xa3, 0xee, 0x5e, 0x6b, 0x4b, 0x0d, 0x32, 0x55,
     0xbf, 0xef, 0x95, 0x60, 0x18, 0x90, 0xaf, 0xd8, 0x07, 0x09] := by decide

example : sha1 (utf8Bytes "abc") =
    [0xa9, 0x99, 0x3e, 0x36, 0x47, 0x06, 0x81, 0x6a, 0xba, 0x3e,
     0x25, 0x71, 0x78, 0x50, 0xc2, 0x6c, 0x9c, 0xd0, 0xd8, 0x9d] := by decide

example : hmacSha1 (utf8Bytes "Jefe") (utf8Bytes "what do ya want for nothing?") =
    [0xef, 0xfc, 0xdf, 0x6a, 0xe5, 0xeb, 0x2f, 0xa2, 0xd2, 0x74,
     0x16, 0xd5, 0xf1, 0x84, 0xdf, 0x9c, 0x25, 0x9a, 0x7c, 0x79] := by decide

example : String.mk (base64Encode (utf8Bytes "Man")) = "TWFu" := by decide
example : String.mk (base64Encode (utf8Bytes "Ma")) = "TWE=" := by decide
example : String.mk (base64Encode (utf8Bytes "M")) = "TQ==" := by decide

/-! ## Shared lemmas -/

/-- With an empty image path, `urlParts` raises the usage error. -/
theorem urlParts_error (b : ThumborUrlBuilder) (h : b.imagePath = "") :
    b.urlParts = Except.error "The image url can't be null or empty." := by
  unfold ThumborUrlBuilder.urlParts
  rw [if_pos h]

/-- With a non-empty image path, `getOperationPath` succeeds. -/
theorem getOperationPath_ok (b : ThumborUrlBuilder) (h : b.imagePath ≠ "") :
    ∃ op, b.getOperationPath = Except.ok op := by
  unfold ThumborUrlBuilder.getOperationPath
  rw [urlParts_eq_segments b h]
  dsimp only
  split <;> exact ⟨_, rfl⟩

/-- The URL-safe substitution neither creates nor destroys `=` characters. -/
theorem urlSafeChar_eq_padding (c : Char) : urlSafeChar c = '=' ↔ c = '=' := by
  unfold urlSafeChar
  split_ifs with h1 h2
  · subst h1; decide
  · subst h2; decide
  · exact Iff.rfl

/-- Mapping the URL-safe substitution over a character list preserves the
number of `=` padding characters. -/
theorem count_padding_map (l : List Char) :
    (l.map urlSafeChar).count '=' = l.count '=' := by
  induction l with
  | nil => rfl
  | cons a t ih => simp [List.count_cons, ih, urlSafeChar_eq_padding]

/-- SHA-1 always produces 20 digest bytes. -/
theorem sha1_length (msg : List Nat) : (sha1 msg).length = 20 := by
  unfold sha1 sha1Digest word32Bytes
  simp

/-- HMAC-SHA1 always produces 20 digest bytes. -/
theorem hmacSha1_length (key msg : List Nat) : (hmacSha1 key msg).length = 20 := by
  unfold hmacSha1
  exact sha1_length _

/-- Base64 produces four characters per started three-byte group. -/
theorem base64Encode_length : ∀ l : List Nat,
    (base64Encode l).length = (l.length + 2) / 3 * 4
  | [] => rfl
  | [_] => by simp [base64Encode]
  | [_, _] => by simp [base64Encode]
  | a :: b :: c :: rest => by
      have ih := base64Encode_length rest
      simp only [base64Encode, List.length_cons, ih]
      omega

/-- No single setter call clears the fit-in flag. -/
theorem applySetter_fitInFlag (b : ThumborUrlBuilder) (a : Setter)
    (h : b.fitInFlag = true) : (applySetter b a).fitInFlag = true := by
  cases a <;>
    simp only [applySetter, ThumborUrlBuilder.setImagePath, ThumborUrlBuilder.resize,
      ThumborUrlBuilder.smartCrop, ThumborUrlBuilder.fitIn,
      ThumborUrlBuilder.withFlipHorizontally, ThumborUrlBuilder.withFlipVertically,
      ThumborUrlBuilder.hAlign, ThumborUrlBuilder.vAlign, ThumborUrlBuilder.metaDataOnly,
      ThumborUrlBuilder.filter, ThumborUrlBuilder.format, ThumborUrlBuilder.crop] <;>
    first
      | exact h
      | rfl
      | (split <;> exact h)

/-- No sequence of setter calls clears the fit-in flag. -/
theorem run_fitInFlag (acts : List Setter) (b : ThumborUrlBuilder)
    (h : b.fitInFlag = true) : (run b acts).fitInFlag = true := by
  induction acts generalizing b with
  | nil => exact h
  | cons a t ih => exact ih _ (applySetter_fitInFlag b a h)

/-- With a security key, `getSecureString` computes exactly the signature the
spec describes (shared between the signed-mode claims). -/
theorem getSecureString_signed (b : ThumborUrlBuilder) (k operation : String)
    (hk : b.securityKey = some k) :
    b.getSecureString operation = specSignature k operation b.imagePath := by
  unfold ThumborUrlBuilder.getSecureString specSignature jsReplaceAll
  rw [hk]
  dsimp only
  congr 1
  rw [List.map_map]
  apply List.map_congr_left
  intro c _
  by_cases h1 : c = '+'
  · subst h1; decide
  · by_cases h2 : c = '/'
    · subst h2; decide
    · simp [urlSafeChar, h1, h2]

/-- A signed token always has 28 characters (20 HMAC-SHA1 bytes → 28 Base64
characters, left unchanged in number by the URL-safe substitution). -/
theorem getSecureString_signed_length (b : ThumborUrlBuilder) (k operation : String)
    (hk : b.securityKey = some k) :
    (b.getSecureString operation).data.length = 28 := by
  rw [getSecureString_signed b k operation hk]
  unfold specSignature
  dsimp only
  rw [List.length_map, base64Encode_length, hmacSha1_length]

/-! ## The claims -/

/-- C1: `buildUrl` raises an error iff the stored image path is empty at
render time: for non-empty `imagePath` it returns a URL, for empty
`imagePath` it returns the usage error, and this is the only failure the
system can produce. -/
theorem buildUrl_error_iff (b : ThumborUrlBuilder) :
    (b.imagePath ≠ "" → ∃ u, b.buildUrl = Except.ok u) ∧
    (b.imagePath = "" →
      b.buildUrl = Except.error "The image url can't be null or empty.") := by
  constructor
  · intro h
    obtain ⟨op, hop⟩ := getOperationPath_ok b h
    have hu : b.buildUrl =
        Except.ok (b.serverUrl ++ "/" ++ b.getSecureString op ++ "/" ++ op ++ b.imagePath) := by
      unfold ThumborUrlBuilder.buildUrl
      rw [hop]
    exact ⟨_, hu⟩
  · intro h
    unfold ThumborUrlBuilder.buildUrl ThumborUrlBuilder.getOperationPath
    rw [urlParts_error b h]

/-- C1 witness: a builder with an image path builds, the freshly constructed
one (empty image path) raises the usage error. -/
theorem buildUrl_error_iff_witness :
    (∃ u, ((mkBuilder none "http://example.com").setImagePath "/image.jpg").buildUrl =
      Except.ok u) ∧
    (mkBuilder none "http://example.com").buildUrl =
      Except.error "The image url can't be null or empty." :=
  ⟨(buildUrl_error_iff ((mkBuilder none "http://example.com").setImagePath "/image.jpg")).1
      (by decide),
   (buildUrl_error_iff (mkBuilder none "http://example.com")).2 rfl⟩

/-- C2: whatever sequence of setter calls produced the state, the rendered
segments appear in the fixed order meta, crop, fit-in, size, hAlign, vAlign,
smart, filters, where a segment whose enabling condition is false is the
empty list (omitted entirely, no placeholder). -/
theorem urlParts_fixed_segment_order (key : Option String) (server : String)
    (acts : List Setter) (h : (run (mkBuilder key server) acts).imagePath ≠ "") :
    (run (mkBuilder key server) acts).urlParts =
      Except.ok (metaSeg (run (mkBuilder key server) acts) ++
        cropSeg (run (mkBuilder key server) acts) ++
        fitInSeg (run (mkBuilder key server) acts) ++
        sizeSeg (run (mkBuilder key server) acts) ++
        hAlignSeg (run (mkBuilder key server) acts) ++
        vAlignSeg (run (mkBuilder key server) acts) ++
        smartSeg (run (mkBuilder key server) acts) ++
        filtersSeg (run (mkBuilder key server) acts)) :=
  urlParts_eq_segments _ h

/-- C2 witness: a deliberately scrambled call order enabling every feature
still renders the eight segments in the fixed order. -/
theorem urlParts_fixed_segment_order_witness :
    (run (mkBuilder none "http://example.com")
        [Setter.filter "quality(80)", Setter.smartCrop true, Setter.vAlign VAlign.top,
         Setter.metaDataOnly, Setter.withFlipHorizontally, Setter.fitIn 100 200,
         Setter.hAlign HAlign.left, Setter.crop 1 2 3 4, Setter.format "webp",
         Setter.setImagePath "/image.jpg", Setter.withFlipVertically]).urlParts =
      Except.ok ["meta", "1x2:3x4", "fit-in", "-100x-200", "left", "top", "smart",
        "filters:quality(80):format(webp)"] := by
  rw [urlParts_fixed_segment_order none "http://example.com" _ (by decide)]
  decide

/-- C3: constructed without a security key, the signature token is the
literal string `unsafe`, and the built URL places it between the server root
and the operation path. -/
theorem unsigned_token (b : ThumborUrlBuilder) (operation : String)
    (hk : b.securityKey = none) :
    b.getSecureString operation = "unsafe" ∧
    b.buildUrl = b.getOperationPath.map
      (fun op => b.serverUrl ++ "/" ++ "unsafe" ++ "/" ++ op ++ b.imagePath) := by
  have hs : ∀ o, b.getSecureString o = "unsafe" := by
    intro o
    unfold ThumborUrlBuilder.getSecureString
    rw [hk]
  refine ⟨hs operation, ?_⟩
  unfold ThumborUrlBuilder.buildUrl
  cases hop : b.getOperationPath with
  | error e => simp [Except.map]
  | ok op => simp [Except.map, hs op]

/-- C3 witness. -/
theorem unsigned_token_witness :
    (((mkBuilder none "http://example.com").setImagePath "/image.jpg").resize 300 200).getSecureString
        "300x200/" = "unsafe" ∧
    (((mkBuilder none "http://example.com").setImagePath "/image.jpg").resize 300 200).buildUrl =
      (((mkBuilder none "http://example.com").setImagePath "/image.jpg").resize
          300 200).getOperationPath.map
        (fun op => "http://example.com" ++ "/" ++ "unsafe" ++ "/" ++ op ++ "image.jpg") :=
  unsigned_token _ "300x200/" rfl

/-- C4: constructed with a security key, the signature token is the standard
Base64 encoding of the HMAC-SHA1 digest of `operationPath + imagePath` under
the key, with `+` replaced by `-` and `/` by `_`, and the `=` padding of the
standard encoding preserved. -/
theorem signed_token (b : ThumborUrlBuilder) (k operation : String)
    (hk : b.securityKey = some k) :
    b.getSecureString operation = specSignature k operation b.imagePath ∧
    (b.getSecureString operation).data.count '=' =
      (base64Encode (hmacSha1 (utf8Bytes k)
        (utf8Bytes (operation ++ b.imagePath)))).count '=' := by
  refine ⟨getSecureString_signed b k operation hk, ?_⟩
  rw [getSecureString_signed b k operation hk]
  unfold specSignature
  exact count_padding_map _

/-- C4 witness. -/
theorem signed_token_witness :
    (((mkBuilder (some "MY_KEY") "http://example.com").setImagePath "/image.jpg").resize
        300 200).getSecureString "300x200/" =
      specSignature "MY_KEY" "300x200/" "image.jpg" ∧
    ((((mkBuilder (some "MY_KEY") "http://example.com").setImagePath "/image.jpg").resize
        300 200).getSecureString "300x200/").data.count '=' =
      (base64Encode (hmacSha1 (utf8Bytes "MY_KEY")
        (utf8Bytes ("300x200/" ++ "image.jpg")))).count '=' :=
  signed_token _ "MY_KEY" "300x200/" rfl

/-- C5: `crop` stores the window iff all four coordinates are strictly
positive; otherwise the call returns the builder unchanged (no error). -/
theorem crop_sets_iff (b : ThumborUrlBuilder) (l t r bt : Int) :
    ((0 < l ∧ 0 < t ∧ 0 < r ∧ 0 < bt) →
      b.crop l t r bt =
        { b with cropValues := some { left := l, top := t, right := r, bottom := bt } }) ∧
    (¬(0 < l ∧ 0 < t ∧ 0 < r ∧ 0 < bt) → b.crop l t r bt = b) := by
  unfold ThumborUrlBuilder.crop
  constructor
  · intro h; rw [if_pos h]
  · intro h; rw [if_neg h]

/-- C5 witness: `crop(1,2,3,4)` stores the window, `crop(0,5,10,10)` is a
no-op on the whole state. -/
theorem crop_sets_iff_witness :
    (mkBuilder none "http://example.com").crop 1 2 3 4 =
      { mkBuilder none "http://example.com" with
          cropValues := some { left := 1, top := 2, right := 3, bottom := 4 } } ∧
    (mkBuilder none "http://example.com").crop 0 5 10 10 =
      mkBuilder none "http://example.com" :=
  ⟨(crop_sets_iff (mkBuilder none "http://example.com") 1 2 3 4).1 (by decide),
   (crop_sets_iff (mkBuilder none "http://example.com") 0 5 10 10).2 (by decide)⟩

/-- C6 counterexample: `setImagePath` with input `"//a"` stores `"/a"`,
which does begin with `'/'` — the claim's universal statement is false. -/
theorem setImagePath_leading_slash_cex :
    ((mkBuilder none "http://example.com").setImagePath "//a").imagePath = "/a" ∧
    ((mkBuilder none "http://example.com").setImagePath "//a").imagePath.data.head? =
      some '/' := by
  constructor <;> decide

/-- C6 amended: `setImagePath` strips exactly one leading slash, so the
stored image path begins with `'/'` iff the input begins with `"//"`; for
every input with at most one leading slash the stored value does not begin
with `'/'`. -/
theorem setImagePath_one_slash (b : ThumborUrlBuilder) (p : String) :
    (b.setImagePath p).imagePath.data.head? = some '/' ↔
      p.data.take 2 = ['/', '/'] := by
  unfold ThumborUrlBuilder.setImagePath
  dsimp only
  by_cases hc : p.data.head? = some '/'
  · rw [if_pos hc]
    rcases hd : p.data with _ | ⟨c, rest⟩
    · rw [hd] at hc; simp at hc
    · rw [hd] at hc
      simp only [List.head?_cons, Option.some.injEq] at hc
      subst hc
      cases rest <;> simp
  · rw [if_neg hc]
    rcases hd : p.data with _ | ⟨c, rest⟩
    · simp
    · rw [hd] at hc
      simp only [List.head?_cons, Option.some.injEq] at hc
      simp [hc]

/-- C6 amended witness. -/
theorem setImagePath_one_slash_witness :
    ((mkBuilder none "http://example.com").setImagePath "//a").imagePath.data.head? =
      some '/' :=
  (setImagePath_one_slash (mkBuilder none "http://example.com") "//a").mpr (by decide)

/-- C7: `resize` and `fitIn` each fully overwrite width and height; `fitIn`
additionally sets the fit-in flag; a later `resize` changes only width and
height (the flag and all other fields survive), and no later setter sequence
ever clears the flag. -/
theorem resize_fitIn_flag (b : ThumborUrlBuilder) (w h w2 h2 : Int)
    (acts : List Setter) :
    b.resize w h = { b with width := w, height := h } ∧
    b.fitIn w h = { b with width := w, height := h, fitInFlag := true } ∧
    (b.fitIn w h).resize w2 h2 =
      { b with width := w2, height := h2, fitInFlag := true } ∧
    (b.fitInFlag = true → (run b acts).fitInFlag = true) :=
  ⟨rfl, rfl, rfl, run_fitInFlag acts b⟩

/-- C7 witness: after `fitIn`, a `resize` and a `crop` leave the flag true. -/
theorem resize_fitIn_flag_witness :
    ((mkBuilder none "s").fitIn 1 2).resize 3 4 =
      { (mkBuilder none "s").fitIn 1 2 with width := 3, height := 4 } ∧
    ((mkBuilder none "s").fitIn 1 2).fitIn 3 4 =
      { (mkBuilder none "s").fitIn 1 2 with width := 3, height := 4, fitInFlag := true } ∧
    (((mkBuilder none "s").fitIn 1 2).fitIn 3 4).resize 5 6 =
      { (mkBuilder none "s").fitIn 1 2 with width := 5, height := 6, fitInFlag := true } ∧
    (run ((mkBuilder none "s").fitIn 1 2)
      [Setter.resize 9 9, Setter.crop 7 7 7 7]).fitInFlag = true :=
  have h := resize_fitIn_flag ((mkBuilder none "s").fitIn 1 2) 3 4 5 6
    [Setter.resize 9 9, Setter.crop 7 7 7 7]
  ⟨h.1, h.2.1, h.2.2.1, h.2.2.2 rfl⟩

/-- C8: the build pipeline mutates nothing — in state-passing form it returns
the state it received, its result is the pure `buildUrl` of that state, and a
second build on the post-state returns the identical URL. -/
theorem buildUrl_pure_idempotent (b : ThumborUrlBuilder) :
    b.buildUrlS.2 = b ∧ b.buildUrlS.1 = b.buildUrl ∧
      b.buildUrlS.2.buildUrlS.1 = b.buildUrlS.1 := by
  have key : ∀ s : ThumborUrlBuilder, s.buildUrlS = (s.buildUrl, s) := by
    intro s
    unfold ThumborUrlBuilder.buildUrlS ThumborUrlBuilder.getOperationPathS
      ThumborUrlBuilder.urlPartsS ThumborUrlBuilder.getSecureStringS
      ThumborUrlBuilder.buildUrl ThumborUrlBuilder.getOperationPath
    cases s.urlParts with
    | error e => rfl
    | ok parts =>
        dsimp only
        by_cases hl : parts.length = 0
        · rw [if_pos hl, if_pos hl]
        · rw [if_neg hl, if_neg hl]
  refine ⟨by rw [key b], by rw [key b], ?_⟩
  rw [key b]
  dsimp only
  rw [key b]

/-- C9: filter calls accumulate at the tail in call order, `format(fmt)` is
exactly `filter("format(" + fmt + ")")`, and a non-empty filter list renders
as one segment `filters:` followed by the calls joined with `:`. -/
theorem filter_format_append (b : ThumborUrlBuilder) (c : String) (f : Format) :
    (b.filter c).filtersCalls = b.filtersCalls ++ [c] ∧
    b.format f = b.filter ("format(" ++ f ++ ")") ∧
    (b.filtersCalls.length > 0 →
      filtersSeg b = ["filters:" ++ String.intercalate ":" b.filtersCalls]) :=
  ⟨rfl, rfl, fun h => by unfold filtersSeg; rw [if_pos h]⟩

/-- C9 witness: `filter("quality(80)")` then `format("webp")` renders the
segment `filters:quality(80):format(webp)`. -/
theorem filter_format_append_witness :
    filtersSeg (((mkBuilder none "http://example.com").filter "quality(80)").format "webp") =
      ["filters:quality(80):format(webp)"] := by
  rw [(filter_format_append
    (((mkBuilder none "http://example.com").filter "quality(80)").format "webp")
    "quality(80)" "webp").2.2 (by decide)]
  decide

/-- C10: the empty-string security key is not null, so the builder is signed:
the token is the HMAC-derived signature for key `""` and in particular not
the literal `unsafe`. -/
theorem empty_key_signed (b : ThumborUrlBuilder) (operation : String)
    (hk : b.securityKey = some "") :
    b.getSecureString operation ≠ "unsafe" ∧
    b.getSecureString operation = specSignature "" operation b.imagePath := by
  constructor
  · intro heq
    have hl := getSecureString_signed_length b "" operation hk
    rw [heq] at hl
    exact absurd hl (by decide)
  · exact getSecureString_signed b "" operation hk

/-- C10 witness. -/
theorem empty_key_signed_witness :
    ((mkBuilder (some "") "http://example.com").setImagePath "/image.jpg").getSecureString
        "300x200/" ≠ "unsafe" ∧
    ((mkBuilder (some "") "http://example.com").setImagePath "/image.jpg").getSecureString
        "300x200/" = specSignature "" "300x200/" "image.jpg" :=
  empty_key_signed ((mkBuilder (some "") "http://example.com").setImagePath "/image.jpg")
    "300x200/" rfl

/-! ## End-to-end validation

Worked examples from §8 of the spec, and signed URLs cross-checked against an
independent HMAC-SHA1/Base64 implementation. -/

example :
    (((mkBuilder none "http://example.com").setImagePath "/image.jpg").resize 300 200).buildUrl =
      Except.ok "http://example.com/unsafe/300x200/image.jpg" := by decide

example :
    ((((((mkBuilder none "http://example.com").setImagePath "a.png").fitIn 100 0).hAlign
        HAlign.left).vAlign VAlign.top)).buildUrl =
      Except.ok "http://example.com/unsafe/fit-in/100x0/left/top/a.png" := by decide

example :
    ((((mkBuilder none "http://example.com").setImagePath "x.jpg").withFlipHorizontally).resize
        50 50).urlParts = Except.ok ["-50x50"] := by decide

example :
    (((mkBuilder none "http://example.com").setImagePath "a.jpg").crop 1 2 3 4).urlParts =
      Except.ok ["1x2:3x4"] := by decide

example :
    (((mkBuilder (some "MY_KEY") "http://example.com").setImagePath "/image.jpg").resize
        300 200).buildUrl =
      Except.ok "http://example.com/DNF7EieCwa9UDNavGHKv4HfrNTQ=/300x200/image.jpg" := by
  decide

example :
    (((mkBuilder (some "") "http://example.com").setImagePath "/image.jpg").resize
        300 200).buildUrl =
      Except.ok "http://example.com/ntI0iaaMcCD6THWoLe1JZUAPetQ=/300x200/image.jpg" := by
  decide
